import Mathlib

/-
  Verification development for the todo-api backend (FastAPI + SQLAlchemy).

  Shallow embedding: database tables become Lean lists of records, each
  route handler becomes a pure function from the database state (plus the
  resolved `current_user` dependency and any request data) to the pair of
  the database state after the request and an `Except` result.  Raising an
  HTTPException before any mutation leaves the state component unchanged,
  mirroring the transaction rollback.  Timestamps are modelled as `Nat`.
  External collaborators (bcrypt hashing, SMTP dispatch) are abstracted:
  hashing as a tagging function, e-mail dispatch as a returned event value.
-/

/-- Embeds `UserStatus` from app/models/user.py. -/
inductive UserStatus where
  | PENDING
  | ACTIVE
  | INACTIVE
  | SUSPENDED
  | BANNED
  | DELETED
deriving DecidableEq, Repr

/-- Embeds the `users` table row from app/models/user.py.
    `created_at` / `updated_at` are database-managed audit columns never
    read by the handlers and are omitted.  The SQLAlchemy model defines no
    `soft_delete` method on `User` (only `Todo` has one). -/
structure User where
  id : Nat
  full_name : String
  email : String
  status : UserStatus
  user_status : Bool
  hashed_password : String
  email_verified : Bool
  email_verification_token : Option String
  email_verification_expires : Option Nat
  deleted_at : Option Nat
deriving DecidableEq, Repr

/-- Embeds the `todos` table row from app/models/todo.py
    (audit columns `created_at` / `updated_at` omitted as above). -/
structure Todo where
  id : Nat
  user_id : Nat
  full_name : String
  email : String
  task : String
  completed : Bool
  is_deleted : Bool
  deleted_at : Option Nat
deriving DecidableEq, Repr

/-- Embeds `Todo.soft_delete` from app/models/todo.py. -/
def Todo.soft_delete (t : Todo) (now : Nat) : Todo :=
  { t with is_deleted := true, deleted_at := some now }

/-- Embeds `Todo.restore` from app/models/todo.py. -/
def Todo.restore (t : Todo) : Todo :=
  { t with is_deleted := false, deleted_at := none }

/-- Embeds `Settings.ADMIN_EMAILS` from app/config/settings.py. -/
def ADMIN_EMAILS : List String := ["admin@example.com"]

/-- Embeds `Settings.is_admin_email` from app/config/settings.py. -/
def is_admin_email (email : String) : Bool :=
  ADMIN_EMAILS.contains email

/-- Embeds `hash_password` from app/auth/utils.py.  The bcrypt primitive is
    an external collaborator; it is modelled as an injective tagging
    function, which is all the handlers rely on. -/
def hash_password (password : String) : String :=
  "bcrypt-hash:" ++ password

/-- HTTP error outcomes raised by the route handlers.  `internalError`
    stands for an uncaught Python exception propagating out of a handler
    (HTTP 500). -/
inductive ApiError where
  | badRequest (detail : String)
  | unauthorized (detail : String)
  | forbidden (detail : String)
  | notFound (detail : String)
  | internalError (detail : String)
deriving DecidableEq, Repr

deriving instance DecidableEq for Except

/-- Database states: the `users` and `todos` tables as lists of rows. -/
abbrev UserDb := List User

/-- Todo table state. -/
abbrev TodoDb := List Todo

/-- Replace the first element satisfying `p` by its image under `f`:
    the embedding of `query.filter(...).first()` followed by attribute
    mutation and `commit()`. -/
def replaceFirst (p : α → Bool) (f : α → α) : List α → List α
  | [] => []
  | x :: xs => if p x then f x :: xs else x :: replaceFirst p f xs

/-- Embeds `is_admin` from app/auth/dependencies.py (raises 403 for a
    caller whose e-mail is not on the admin allow-list). -/
def is_admin_check (current_user : User) : Except ApiError Bool :=
  if is_admin_email current_user.email then .ok true
  else .error (.forbidden "Admin privileges required")

/- ===================== Todo routes (app/api/routes/todos.py) ============ -/

/-- Embeds `get_todos` (GET /todos): admins see every row, other callers
    only rows with their own `user_id`; then offset/limit pagination.
    No `is_deleted` filter appears in the source. -/
def get_todos (db : TodoDb) (current_user : User) (page per_page : Nat) :
    List Todo :=
  let q := if is_admin_email current_user.email then db
           else db.filter (fun t => t.user_id == current_user.id)
  (q.drop ((page - 1) * per_page)).take per_page

/-- Embeds `create_todo` (POST /todos): the owner fields always come from
    the authenticated caller. -/
def create_todo (db : TodoDb) (current_user : User) (fresh_id : Nat)
    (task : String) (completed : Bool) : TodoDb × Todo :=
  let new_todo : Todo :=
    { id := fresh_id
      user_id := current_user.id
      full_name := current_user.full_name
      email := current_user.email
      task := task
      completed := completed
      is_deleted := false
      deleted_at := none }
  (db ++ [new_todo], new_todo)

/-- Embeds `get_todo` (GET /todos/id): 404 when no row has the id,
    403 when the caller is no admin and not the owner. -/
def get_todo (db : TodoDb) (current_user : User) (todo_id : Nat) :
    Except ApiError Todo :=
  match db.find? (fun t => t.id == todo_id) with
  | none => .error (.notFound "Todo not found")
  | some todo =>
    if is_admin_email current_user.email then .ok todo
    else if todo.user_id != current_user.id then
      .error (.forbidden "Not authorized to access this todo")
    else .ok todo

/-- Request body of PUT /todos/id (app/schemas/todo.py `TodoUpdate`),
    with `exclude_unset` semantics: `none` means the field is absent. -/
structure TodoUpdate where
  full_name : Option String
  email : Option String
  task : Option String
  completed : Option Bool
deriving DecidableEq, Repr

/-- Apply the `setattr` loop of `update_todo` to one row. -/
def apply_todo_update (t : Todo) (upd : TodoUpdate) : Todo :=
  let t := match upd.full_name with
    | some v => { t with full_name := v }
    | none => t
  let t := match upd.email with
    | some v => { t with email := v }
    | none => t
  let t := match upd.task with
    | some v => { t with task := v }
    | none => t
  match upd.completed with
  | some v => { t with completed := v }
  | none => t

/-- Embeds `update_todo` (PUT /todos/id): 404 when the row is missing,
    403 for a non-admin non-owner, otherwise mutate-and-commit. -/
def update_todo (db : TodoDb) (current_user : User) (todo_id : Nat)
    (upd : TodoUpdate) : TodoDb × Except ApiError Unit :=
  match db.find? (fun t => t.id == todo_id) with
  | none => (db, .error (.notFound "Todo not found"))
  | some todo =>
    if is_admin_email current_user.email || todo.user_id == current_user.id
    then
      (replaceFirst (fun t => t.id == todo_id)
        (fun t => apply_todo_update t upd) db, .ok ())
    else (db, .error (.forbidden "Not authorized to update this todo"))

/-- Embeds `delete_todo` (DELETE /todos/id): 404 when the row is missing,
    403 for a non-admin non-owner, otherwise `db.delete(todo)` — the row
    is removed outright (`List.eraseP`), no soft-delete flag is set. -/
def delete_todo (db : TodoDb) (current_user : User) (todo_id : Nat) :
    TodoDb × Except ApiError Unit :=
  match db.find? (fun t => t.id == todo_id) with
  | none => (db, .error (.notFound "Todo not found"))
  | some todo =>
    if is_admin_email current_user.email || todo.user_id == current_user.id
    then (db.eraseP (fun t => t.id == todo_id), .ok ())
    else (db, .error (.forbidden "Not authorized to delete this todo"))

/- ==================== Auth routes (app/api/routes/auth.py) ============== -/

/-- Embeds `register` (POST /auth/register).  The random verification
    token and its expiry come from the e-mail collaborator
    (`generate_verification_token` / `get_verification_expiry`) and are
    passed in as parameters `tok` / `expiry`; `fresh_id` is the id the
    database assigns to the inserted row.  An admin-listed e-mail is
    created ACTIVE and verified with no token.  On any other e-mail the
    handler calls `send_verification_email` with four positional
    arguments, while the method (email.py line 27) takes three: Python
    raises TypeError before `db.add` / `db.commit` run, the surrounding
    try catches only ValidationError, so the request returns HTTP 500 and
    no row is ever inserted. -/
def register (db : UserDb) (fresh_id : Nat)
    (full_name email password : String) (tok : String) (expiry : Nat) :
    UserDb × Except ApiError Unit :=
  if (db.find? (fun u => u.email == email)).isSome then
    (db, .error (.badRequest "Email already registered"))
  else if is_admin_email email then
    (db ++ [{ id := fresh_id
              full_name := full_name
              email := email
              status := .ACTIVE
              user_status := true
              hashed_password := hash_password password
              email_verified := true
              email_verification_token := none
              email_verification_expires := none
              deleted_at := none }], .ok ())
  else
    (db, .error (.internalError
      "TypeError: send_verification_email() takes 4 positional arguments but 5 were given"))

/-- Guard `user.email_verification_expires and ... < current_time` from
    `verify_email_via_link`: true exactly when an expiry is stored and is
    strictly earlier than now. -/
def verification_expired (u : User) (now : Nat) : Bool :=
  match u.email_verification_expires with
  | some e => decide (e < now)
  | none => false

/-- Successful-verification write of `verify_email_via_link`: set the
    account ACTIVE and verified, clear token and expiry. -/
def verified_update (u : User) : User :=
  { u with status := .ACTIVE, email_verified := true, user_status := true,
           email_verification_token := none,
           email_verification_expires := none }

/-- Embeds `verify_email_via_link` (GET /auth/verify-email/token).
    Look the user up by exact token match (400 when absent); 400 when the
    stored expiry exists and is strictly earlier than now, with no state
    change; otherwise apply `verified_update`. -/
def verify_email_via_link (db : UserDb) (token : String) (now : Nat) :
    UserDb × Except ApiError Unit :=
  match db.find? (fun u => u.email_verification_token == some token) with
  | none => (db, .error (.badRequest "Invalid verification token"))
  | some user =>
    if verification_expired user now then
      (db, .error (.badRequest "Verification token has expired"))
    else
      (replaceFirst (fun u => u.email_verification_token == some token)
        verified_update db, .ok ())

/-- Mutation applied by `resend_verification` to an account whose e-mail
    matches the request: store the fresh token and expiry, and when the
    account is not PENDING also force status ACTIVE and mark the e-mail
    verified. -/
def resend_update (tok : String) (expiry : Nat) (u : User) : User :=
  let u1 := { u with email_verification_token := some tok,
                     email_verification_expires := some expiry }
  if u1.status != .PENDING then
    { u1 with status := .ACTIVE, email_verified := true, user_status := true }
  else u1

/-- Embeds `resend_verification` (POST /auth/resend-verification), an
    unauthenticated endpoint.  When the supplied e-mail matches an
    account, apply `resend_update` to it and commit (auth.py line 196);
    the handler then calls `send_verification_email` with four positional
    arguments against the three-parameter method (auth.py lines 198-203),
    so after the commit Python raises TypeError and the request returns
    HTTP 500 — the mutation persists, the success body is never reached.
    Otherwise, when exactly one PENDING account exists, rename it to the
    supplied e-mail and restamp the token (this branch calls the e-mail
    method with the correct three arguments, line 238, and succeeds);
    404 with no PENDING account, 400 with several. -/
def resend_verification (db : UserDb) (target_email : String)
    (tok : String) (expiry : Nat) : UserDb × Except ApiError Unit :=
  match db.find? (fun u => u.email == target_email) with
  | some _ =>
    (replaceFirst (fun u => u.email == target_email)
      (resend_update tok expiry) db,
     .error (.internalError
       "TypeError: send_verification_email() takes 4 positional arguments but 5 were given"))
  | none =>
    let pending := db.filter (fun u => u.status == .PENDING)
    match pending with
    | [] => (db, .error (.notFound
        "No pending verification accounts found. Please register first."))
    | [_] =>
      (replaceFirst (fun u => u.status == .PENDING)
        (fun u => { u with email := target_email,
                           email_verification_token := some tok,
                           email_verification_expires := some expiry,
                           status := .PENDING,
                           email_verified := false }) db, .ok ())
    | _ => (db, .error (.badRequest
        "Multiple pending accounts found. Please contact support or try registering again."))

/-- Notification event of the status-change e-mail collaborator:
    recipient, full name, new status.  A successful response carries the
    notification actually dispatched during the request (`none` when no
    e-mail was sent); the theorems below show no execution ever carries
    `some`, because the dispatch call itself crashes. -/
structure StatusEmail where
  to_email : String
  full_name : String
  new_status : UserStatus
deriving DecidableEq, Repr

/-- Embeds `update_user_status` (PATCH /auth/users/id/status).  The
    `is_admin` dependency runs before the handler, so every non-admin
    caller fails 403.  Then the target is looked up (404 when absent).
    The request body field is typed `UserStatus` by pydantic, so the
    `UserStatus[...upper()]` parse always succeeds and is embedded as the
    already-parsed `new_status`.  The DELETED branch executes
    `user.soft_delete()`, a method the `User` model does not define: in
    Python this raises `AttributeError` before any mutation, which
    propagates as HTTP 500, embedded as `internalError`.  Any other status
    is written together with the derived `user_status` flag, clearing
    `deleted_at` when leaving DELETED, and committed (auth.py line 401).
    When the status actually changed, the handler then calls
    `send_status_change_email` with four positional arguments against the
    three-parameter method (auth.py lines 404-409 vs email.py line 64):
    TypeError is raised at the call, before any SMTP traffic, so the
    request returns HTTP 500 with the commit already persisted and no
    notification dispatched.  Only a same-status update reaches the
    success response, which then carries no notification. -/
def update_user_status (db : UserDb) (current_user : User) (user_id : Nat)
    (new_status : UserStatus) (now : Nat) :
    UserDb × Except ApiError (Option StatusEmail) :=
  if !is_admin_email current_user.email then
    (db, .error (.forbidden "Admin privileges required"))
  else
    match db.find? (fun u => u.id == user_id) with
    | none => (db, .error (.notFound "User with ID not found"))
    | some user =>
      let old_status := user.status
      if new_status == .DELETED then
        (db, .error (.internalError
          "AttributeError: User object has no attribute soft_delete"))
      else
        let db2 := replaceFirst (fun u => u.id == user_id)
          (fun u =>
            let u2 := { u with status := new_status,
                               user_status := new_status == .ACTIVE }
            if old_status == .DELETED then { u2 with deleted_at := none }
            else u2) db
        if old_status != new_status then
          (db2, .error (.internalError
            "TypeError: send_status_change_email() takes 4 positional arguments but 5 were given"))
        else (db2, .ok none)

/-- Request body of PATCH /auth/users/id (app/schemas/user.py
    `UserUpdate`), with `exclude_unset` semantics. -/
structure UserUpdate where
  full_name : Option String
  email : Option String
  password : Option String
deriving DecidableEq, Repr

/-- Apply the field loop of `update_user` to the target row (fields are
    iterated in declaration order: full_name, e-mail, password).  A changed
    e-mail resets verification: verified := false, fresh token and expiry
    stored, and ACTIVE falls back to PENDING. -/
def apply_user_update (u : User) (upd : UserUpdate) (tok : String)
    (expiry : Nat) : User :=
  let u := match upd.full_name with
    | some v => { u with full_name := v }
    | none => u
  let u := match upd.email with
    | some v =>
      if v != u.email then
        { u with email := v
                 email_verified := false
                 email_verification_token := some tok
                 email_verification_expires := some expiry
                 status := if u.status == .ACTIVE then .PENDING
                           else u.status }
      else u
    | none => u
  match upd.password with
  | some v => { u with hashed_password := hash_password v }
  | none => u

/-- Condition under which `update_user` sets its `email_changed` flag: an
    e-mail value was supplied and differs from the stored one. -/
def email_changed_by (u : User) (upd : UserUpdate) : Bool :=
  match upd.email with
  | some v => v != u.email
  | none => false

/-- Embeds `update_user` (PATCH /auth/users/id): 404 when the target row
    is missing; allowed for admins and for the target user themselves,
    403 otherwise; then mutate-and-commit via `apply_user_update`
    (auth.py line 531).  When the e-mail changed, the handler afterwards
    calls `send_verification_email` with four positional arguments
    against the three-parameter method (auth.py lines 535-540): TypeError
    propagates as HTTP 500 with the commit already persisted. -/
def update_user (db : UserDb) (current_user : User) (user_id : Nat)
    (upd : UserUpdate) (tok : String) (expiry : Nat) :
    UserDb × Except ApiError Unit :=
  match db.find? (fun u => u.id == user_id) with
  | none => (db, .error (.notFound "User not found"))
  | some target =>
    if is_admin_email current_user.email || target.id == current_user.id
    then
      let db2 := replaceFirst (fun u => u.id == user_id)
        (fun u => apply_user_update u upd tok expiry) db
      if email_changed_by target upd then
        (db2, .error (.internalError
          "TypeError: send_verification_email() takes 4 positional arguments but 5 were given"))
      else (db2, .ok ())
    else (db, .error (.forbidden "You can only update your own profile"))

/- ====================== Token service (app/auth/utils.py) =============== -/

/-- Claims carried by a JWT issued by `create_token`: subject e-mail,
    expiry instant, and the explicit type tag ("access" or "refresh"). -/
structure JwtClaims where
  sub : String
  exp : Nat
  ttype : String
deriving DecidableEq, Repr

/-- A signed token: its claims plus the key it was signed with; a
    signature verifies exactly when the decoding key equals it. -/
structure Jwt where
  claims : JwtClaims
  signed_with : String
deriving DecidableEq, Repr

/-- Error outcomes of token validation, mirroring the `ValueError`
    messages raised by `verify_token`. -/
inductive TokenError where
  | expired
  | invalid
  | typeMismatch (expected got : String)
deriving DecidableEq, Repr

/-- Embeds `create_token`: encode the subject with the expiry and the
    type tag, signed with the secret key. -/
def create_token (sub : String) (exp : Nat) (token_type : String)
    (secret : String) : Jwt :=
  { claims := { sub := sub, exp := exp, ttype := token_type },
    signed_with := secret }

/-- Embeds `create_access_token`. -/
def create_access_token (sub : String) (exp : Nat) (secret : String) : Jwt :=
  create_token sub exp "access" secret

/-- Embeds `create_refresh_token`. -/
def create_refresh_token (sub : String) (exp : Nat) (secret : String) : Jwt :=
  create_token sub exp "refresh" secret

/-- Embeds `jose.jwt.decode` as used by `verify_token`: reject a wrong
    signature, reject an expiry strictly in the past, else return the
    claims. -/
def jwt_decode (t : Jwt) (secret : String) (now : Nat) :
    Except TokenError JwtClaims :=
  if t.signed_with != secret then .error .invalid
  else if t.claims.exp < now then .error .expired
  else .ok t.claims

/-- Embeds `verify_token`: decode, then reject the token when its type
    tag differs from the expected kind. -/
def verify_token (t : Jwt) (secret : String) (now : Nat)
    (expected_type : String) : Except TokenError JwtClaims :=
  match jwt_decode t secret now with
  | .error e => .error e
  | .ok payload =>
    if payload.ttype != expected_type then
      .error (.typeMismatch expected_type payload.ttype)
    else .ok payload

/- =========================== List lemmas ================================ -/

/-- Invariant of the invariants claim, as a decidable check on one row:
    a verified e-mail carries no verification token. -/
def email_invariant (u : User) : Bool :=
  !u.email_verified || u.email_verification_token == none

/-- The invariant over the whole users table. -/
def db_email_invariant (db : UserDb) : Bool :=
  db.all email_invariant

/-- When the update preserves the predicate, the first match after the
    update is the image of the first match before it. -/
theorem find?_replaceFirst_of_pres (p : α → Bool) (f : α → α)
    (hf : ∀ x, p x = true → p (f x) = true) :
    ∀ l : List α, List.find? p (replaceFirst p f l) = (List.find? p l).map f
  | [] => rfl
  | x :: xs => by
    cases hp : p x with
    | true =>
      rw [replaceFirst, if_pos hp, List.find?_cons_of_pos _ (hf x hp),
        List.find?_cons_of_pos _ hp]
      rfl
    | false =>
      rw [replaceFirst, if_neg (by simp [hp]), List.find?_cons_of_neg _ (by simp [hp]),
        List.find?_cons_of_neg _ (by simp [hp]),
        find?_replaceFirst_of_pres p f hf xs]

/-- The image of the first match is a member of the updated list. -/
theorem mem_replaceFirst_of_find? (p : α → Bool) (f : α → α) :
    ∀ l : List α, ∀ u, List.find? p l = some u → f u ∈ replaceFirst p f l
  | [], _, h => by exact absurd h (by simp)
  | x :: xs, u, h => by
    cases hp : p x with
    | true =>
      rw [List.find?_cons_of_pos _ hp] at h
      cases h
      rw [replaceFirst, if_pos hp]
      exact List.mem_cons_self _ _
    | false =>
      rw [List.find?_cons_of_neg _ (by simp [hp])] at h
      rw [replaceFirst, if_neg (by simp [hp])]
      exact List.mem_cons_of_mem _ (mem_replaceFirst_of_find? p f xs u h)

/-- When the update falsifies the predicate and at most one element
    satisfied it, nothing satisfies it after the update. -/
theorem find?_replaceFirst_none (p : α → Bool) (f : α → α)
    (hf : ∀ x, p (f x) = false) :
    ∀ l : List α, l.countP p ≤ 1 → List.find? p (replaceFirst p f l) = none
  | [], _ => rfl
  | x :: xs, h => by
    cases hp : p x with
    | true =>
      rw [replaceFirst, if_pos hp, List.find?_cons_of_neg _ (by simp [hf x])]
      rw [List.countP_cons_of_pos _ _ hp] at h
      have hzero : xs.countP p = 0 := by omega
      rw [List.find?_eq_none]
      intro a ha hpa
      have := (List.countP_eq_zero.mp hzero) a ha
      simp [hpa] at this
    | false =>
      rw [replaceFirst, if_neg (by simp [hp]),
        List.find?_cons_of_neg _ (by simp [hp])]
      refine find?_replaceFirst_none p f hf xs ?_
      rw [List.countP_cons_of_neg _ _ (by simp [hp])] at h
      exact h

/-- A pointwise-preserved `all` predicate survives `replaceFirst`. -/
theorem all_replaceFirst (p : α → Bool) (f : α → α) (q : α → Bool)
    (hf : ∀ x, q x = true → q (f x) = true) :
    ∀ l : List α, l.all q = true → (replaceFirst p f l).all q = true
  | [], _ => rfl
  | x :: xs, h => by
    rw [List.all_cons, Bool.and_eq_true] at h
    cases hp : p x with
    | true =>
      rw [replaceFirst, if_pos hp, List.all_cons, Bool.and_eq_true]
      exact ⟨hf x h.1, h.2⟩
    | false =>
      rw [replaceFirst, if_neg (by simp [hp]), List.all_cons, Bool.and_eq_true]
      exact ⟨h.1, all_replaceFirst p f q hf xs h.2⟩

/-- Erasing the first match leaves no match when at most one element
    satisfied the predicate. -/
theorem find?_eraseP_none (p : α → Bool) :
    ∀ l : List α, l.countP p ≤ 1 → List.find? p (l.eraseP p) = none
  | [], _ => rfl
  | x :: xs, h => by
    cases hp : p x with
    | true =>
      rw [List.eraseP_cons_of_pos hp]
      rw [List.countP_cons_of_pos _ _ hp] at h
      have hzero : xs.countP p = 0 := by omega
      rw [List.find?_eq_none]
      intro a ha hpa
      have := (List.countP_eq_zero.mp hzero) a ha
      simp [hpa] at this
    | false =>
      rw [List.eraseP_cons_of_neg (by simp [hp]),
        List.find?_cons_of_neg _ (by simp [hp])]
      refine find?_eraseP_none p xs ?_
      rw [List.countP_cons_of_neg _ _ (by simp [hp])] at h
      exact h

/- ======================= Concrete fixtures ============================== -/

/-- A verified, active, non-admin user. -/
def alice : User :=
  { id := 1, full_name := "Alice", email := "alice@example.com",
    status := .ACTIVE, user_status := true, hashed_password := "h1",
    email_verified := true, email_verification_token := none,
    email_verification_expires := none, deleted_at := none }

/-- An admin-listed user (e-mail on `ADMIN_EMAILS`). -/
def admin_user : User :=
  { id := 9, full_name := "Admin", email := "admin@example.com",
    status := .ACTIVE, user_status := true, hashed_password := "h9",
    email_verified := true, email_verification_token := none,
    email_verification_expires := none, deleted_at := none }

/-- An unverified PENDING user holding the token tok-c expiring at 100. -/
def carol : User :=
  { id := 3, full_name := "Carol", email := "carol@example.com",
    status := .PENDING, user_status := false, hashed_password := "h3",
    email_verified := false, email_verification_token := some "tok-c",
    email_verification_expires := some 100, deleted_at := none }

/-- A suspended (hence non-PENDING) user. -/
def dan : User :=
  { id := 4, full_name := "Dan", email := "dan@example.com",
    status := .SUSPENDED, user_status := false, hashed_password := "h4",
    email_verified := true, email_verification_token := none,
    email_verification_expires := none, deleted_at := none }

/-- A todo owned by user id 2 (not Alice). -/
def bob_todo : Todo :=
  { id := 5, user_id := 2, full_name := "Bob", email := "bob@example.com",
    task := "write report", completed := false, is_deleted := false,
    deleted_at := none }

/-- A soft-deleted todo owned by Alice. -/
def alice_deleted_todo : Todo :=
  { id := 7, user_id := 1, full_name := "Alice",
    email := "alice@example.com", task := "old task", completed := true,
    is_deleted := true, deleted_at := some 40 }

/-- An empty PUT /todos body. -/
def empty_todo_update : TodoUpdate :=
  { full_name := none, email := none, task := none, completed := none }

/- ========================= Claim theorems =============================== -/

/-- C1 counterexample: Alice (authenticated, non-admin) requesting the
    existing todo of another owner gets Forbidden (403), not the NotFound
    (404) the claim asserts. -/
theorem c1_counterexample :
    get_todo [bob_todo] alice 5 =
      .error (.forbidden "Not authorized to access this todo") ∧
    get_todo [bob_todo] alice 5 ≠ .error (.notFound "Todo not found") := by
  constructor
  · decide
  · decide

/-- C1 amended: for a non-admin caller, GET, PUT and DELETE on an
    existing todo of a different owner fail Forbidden (403) — not the
    NotFound of the claim — while a non-existent todo id fails NotFound
    (404) on all three routes. -/
theorem c1_cross_owner_forbidden (db : TodoDb) (cu : User) (tid : Nat)
    (t : Todo) (upd : TodoUpdate)
    (hadmin : is_admin_email cu.email = false)
    (hfind : db.find? (fun x => x.id == tid) = some t)
    (howner : t.user_id ≠ cu.id) :
    (get_todo db cu tid =
       .error (.forbidden "Not authorized to access this todo") ∧
     update_todo db cu tid upd =
       (db, .error (.forbidden "Not authorized to update this todo")) ∧
     delete_todo db cu tid =
       (db, .error (.forbidden "Not authorized to delete this todo"))) ∧
    (∀ db2 : TodoDb, db2.find? (fun x => x.id == tid) = none →
      get_todo db2 cu tid = .error (.notFound "Todo not found") ∧
      update_todo db2 cu tid upd = (db2, .error (.notFound "Todo not found")) ∧
      delete_todo db2 cu tid = (db2, .error (.notFound "Todo not found"))) := by
  constructor
  · refine ⟨?_, ?_, ?_⟩ <;>
      simp [get_todo, update_todo, delete_todo, hfind, hadmin, howner]
  · intro db2 h2
    refine ⟨?_, ?_, ?_⟩ <;> simp [get_todo, update_todo, delete_todo, h2]

/-- C1 witness: the amended theorem applied to Alice and the foreign todo. -/
theorem c1_cross_owner_forbidden_witness :
    is_admin_email alice.email = false ∧
    List.find? (fun x => x.id == 5) [bob_todo] = some bob_todo ∧
    bob_todo.user_id ≠ alice.id ∧
    (get_todo [bob_todo] alice 5 =
       .error (.forbidden "Not authorized to access this todo") ∧
     update_todo [bob_todo] alice 5 empty_todo_update =
       ([bob_todo], .error (.forbidden "Not authorized to update this todo")) ∧
     delete_todo [bob_todo] alice 5 =
       ([bob_todo], .error (.forbidden "Not authorized to delete this todo"))) :=
  ⟨by decide, by decide, by decide,
    (c1_cross_owner_forbidden [bob_todo] alice 5 bob_todo empty_todo_update
      (by decide) (by decide) (by decide)).1⟩

/-- C3 counterexample: Alice, a non-admin who is not INACTIVE, requests
    INACTIVE on her own record and still fails Forbidden, against the
    claim that self-deactivation succeeds. -/
theorem c3_counterexample :
    (update_user_status [alice] alice 1 .INACTIVE 0).2 =
      .error (.forbidden "Admin privileges required") := by
  decide

/-- C3 amended: the `is_admin` dependency guards the whole route, so every
    status update by a non-admin caller fails Forbidden with no state
    change — including a user requesting INACTIVE on their own record. -/
theorem c3_non_admin_always_forbidden (db : UserDb) (cu : User) (uid : Nat)
    (st : UserStatus) (n : Nat)
    (hadmin : is_admin_email cu.email = false) :
    update_user_status db cu uid st n =
      (db, .error (.forbidden "Admin privileges required")) := by
  simp [update_user_status, hadmin]

/-- C3 witness: Alice deactivating herself is rejected by the admin gate. -/
theorem c3_non_admin_always_forbidden_witness :
    is_admin_email alice.email = false ∧
    update_user_status [alice] alice 1 .INACTIVE 0 =
      ([alice], .error (.forbidden "Admin privileges required")) :=
  ⟨by decide, c3_non_admin_always_forbidden [alice] alice 1 .INACTIVE 0 (by decide)⟩

/-- C2: the DELETED branch of `update_user_status` calls
    `user.soft_delete()`, a method the `User` model does not define, so
    for every admin caller and existing target the request raises
    AttributeError (HTTP 500) instead of stamping `deleted_at`: the
    deletion semantics the claim (and spec) describe is unreachable. -/
theorem c2_delete_raises_attribute_error (db : UserDb) (cu : User)
    (uid : Nat) (n : Nat) (u : User)
    (hadmin : is_admin_email cu.email = true)
    (hfind : db.find? (fun x => x.id == uid) = some u) :
    update_user_status db cu uid .DELETED n =
      (db, .error (.internalError
        "AttributeError: User object has no attribute soft_delete")) := by
  simp [update_user_status, hadmin, hfind]

/-- C2 witness: the admin deleting Alice hits the missing method. -/
theorem c2_delete_raises_attribute_error_witness :
    is_admin_email admin_user.email = true ∧
    List.find? (fun x => x.id == 1) [alice] = some alice ∧
    update_user_status [alice] admin_user 1 .DELETED 99 =
      ([alice], .error (.internalError
        "AttributeError: User object has no attribute soft_delete")) :=
  ⟨by decide, by decide,
    c2_delete_raises_attribute_error [alice] admin_user 1 99 alice
      (by decide) (by decide)⟩

/-- C10: the explicit equality check of auth.py line 403 guards the
    dispatch, but the dispatch call itself is mis-aritied and crashes: a
    changed-status update (admin caller, existing target, non-DELETED
    request) commits the write and then fails HTTP 500 with no
    notification sent; a same-status update succeeds and sends none; and
    no execution of the route whatsoever dispatches a notification. -/
theorem c10_notification_never_dispatched (db : UserDb) (cu : User)
    (uid : Nat) (st : UserStatus) (n : Nat) (u : User)
    (hadmin : is_admin_email cu.email = true)
    (hfind : db.find? (fun x => x.id == uid) = some u)
    (hst : st ≠ .DELETED) :
    (u.status ≠ st →
      (update_user_status db cu uid st n).2 =
        .error (.internalError
          "TypeError: send_status_change_email() takes 4 positional arguments but 5 were given")) ∧
    (u.status = st → (update_user_status db cu uid st n).2 = .ok none) ∧
    (∀ (db2 : UserDb) (cu2 : User) (uid2 : Nat) (st2 : UserStatus)
        (n2 : Nat) (em : StatusEmail),
      (update_user_status db2 cu2 uid2 st2 n2).2 ≠ .ok (some em)) := by
  refine ⟨?_, ?_, ?_⟩
  · intro hne
    simp [update_user_status, hadmin, hfind, hst, hne]
  · intro heq
    simp [update_user_status, hadmin, hfind, hst, heq]
  · intro db2 cu2 uid2 st2 n2 em
    unfold update_user_status
    split
    · simp
    · split
      · simp
      · dsimp only
        split
        · simp
        · split
          · simp
          · simp

/-- C10 witness: the admin suspending active Alice gets the TypeError
    500 and no e-mail; re-requesting her current status succeeds with no
    e-mail. -/
theorem c10_notification_never_dispatched_witness :
    is_admin_email admin_user.email = true ∧
    List.find? (fun x => x.id == 1) [alice] = some alice ∧
    UserStatus.SUSPENDED ≠ UserStatus.DELETED ∧
    alice.status ≠ UserStatus.SUSPENDED ∧
    (update_user_status [alice] admin_user 1 .SUSPENDED 7).2 =
      .error (.internalError
        "TypeError: send_status_change_email() takes 4 positional arguments but 5 were given") ∧
    (update_user_status [alice] admin_user 1 .ACTIVE 7).2 = .ok none :=
  ⟨by decide, by decide, by decide, by decide,
    (c10_notification_never_dispatched [alice] admin_user 1 .SUSPENDED 7
      alice (by decide) (by decide) (by decide)).1 (by decide),
    (c10_notification_never_dispatched [alice] admin_user 1 .ACTIVE 7
      alice (by decide) (by decide) (by decide)).2.1 (by decide)⟩

/-- The resend mutation never changes the account e-mail. -/
theorem resend_update_email_eq (tok : String) (expiry : Nat) (x : User) :
    (resend_update tok expiry x).email = x.email := by
  unfold resend_update
  dsimp only
  split
  · rfl
  · rfl

/-- The resend mutation on a non-PENDING account: fresh token and expiry
    stored, status forced ACTIVE, e-mail marked verified. -/
theorem resend_update_of_not_pending (tok : String) (expiry : Nat)
    (u : User) (h : u.status ≠ .PENDING) :
    resend_update tok expiry u =
      { u with status := .ACTIVE, email_verified := true,
               user_status := true,
               email_verification_token := some tok,
               email_verification_expires := some expiry } := by
  unfold resend_update
  dsimp only
  rw [if_pos]
  simpa using h

/-- C5 counterexample: resending to suspended Dan does not succeed — the
    four-argument send_verification_email call crashes after the commit
    and the request returns HTTP 500, against the claimed success. -/
theorem c5_counterexample :
    (resend_verification [dan] "dan@example.com" "tok2" 500).2 ≠ .ok () ∧
    (resend_verification [dan] "dan@example.com" "tok2" 500).2 =
      .error (.internalError
        "TypeError: send_verification_email() takes 4 positional arguments but 5 were given") := by
  constructor
  · decide
  · decide

/-- C5 amended: for a registered e-mail whose account is not PENDING, the
    unauthenticated resend-verification endpoint commits its mutation —
    the account persists as ACTIVE and e-mail-verified with the fresh
    token and expiry stored — but the request then crashes in the
    mis-aritied send_verification_email call and returns HTTP 500
    instead of succeeding. -/
theorem c5_resend_persists_then_crashes (db : UserDb)
    (target_email tok : String) (expiry : Nat) (u : User)
    (hfind : db.find? (fun x => x.email == target_email) = some u)
    (hst : u.status ≠ .PENDING) :
    (resend_verification db target_email tok expiry).2 =
      .error (.internalError
        "TypeError: send_verification_email() takes 4 positional arguments but 5 were given") ∧
    (resend_verification db target_email tok expiry).1.find?
        (fun x => x.email == target_email) =
      some { u with status := .ACTIVE, email_verified := true,
                    user_status := true,
                    email_verification_token := some tok,
                    email_verification_expires := some expiry } := by
  have hred : resend_verification db target_email tok expiry =
      (replaceFirst (fun x => x.email == target_email)
        (resend_update tok expiry) db,
       .error (.internalError
         "TypeError: send_verification_email() takes 4 positional arguments but 5 were given")) := by
    unfold resend_verification
    rw [hfind]
  constructor
  · rw [hred]
  · rw [hred]
    have hpres : ∀ x : User, (x.email == target_email) = true →
        ((resend_update tok expiry x).email == target_email) = true := by
      intro x hx
      rw [resend_update_email_eq]
      exact hx
    rw [find?_replaceFirst_of_pres _ _ hpres db, hfind]
    rw [Option.map_some']
    rw [resend_update_of_not_pending tok expiry u hst]

/-- C5 witness: resending to suspended Dan persists the reactivation but
    the request itself fails with the TypeError 500. -/
theorem c5_resend_persists_then_crashes_witness :
    List.find? (fun x => x.email == "dan@example.com") [dan] = some dan ∧
    dan.status ≠ .PENDING ∧
    (resend_verification [dan] "dan@example.com" "tok2" 500).2 =
      .error (.internalError
        "TypeError: send_verification_email() takes 4 positional arguments but 5 were given") ∧
    (resend_verification [dan] "dan@example.com" "tok2" 500).1.find?
        (fun x => x.email == "dan@example.com") =
      some { dan with status := .ACTIVE, email_verified := true,
                      user_status := true,
                      email_verification_token := some "tok2",
                      email_verification_expires := some 500 } :=
  ⟨by decide, by decide,
    (c5_resend_persists_then_crashes [dan] "dan@example.com" "tok2" 500 dan
      (by decide) (by decide)).1,
    (c5_resend_persists_then_crashes [dan] "dan@example.com" "tok2" 500 dan
      (by decide) (by decide)).2⟩

/-- C4 counterexample: resend-verification on already-verified ACTIVE
    Alice stores a fresh token while keeping email_verified=true, so the
    operation breaks the invariant the claim asserts for it. -/
theorem c4_counterexample :
    db_email_invariant [alice] = true ∧
    db_email_invariant
      (resend_verification [alice] "alice@example.com" "tok9" 500).1 =
      false := by
  constructor
  · decide
  · decide

/-- A user-update never produces a verified account holding a token: a
    changed e-mail resets email_verified to false, other fields leave
    both columns alone. -/
theorem email_invariant_apply_user_update (u : User) (upd : UserUpdate)
    (tok : String) (expiry : Nat) (h : email_invariant u = true) :
    email_invariant (apply_user_update u upd tok expiry) = true := by
  rcases upd with ⟨fn, em, pw⟩
  unfold apply_user_update
  cases fn <;> cases em <;> cases pw <;>
    dsimp only <;>
    first
      | simpa [email_invariant] using h
      | (split
         · simp [email_invariant]
         · simpa [email_invariant] using h)

/-- Registration preserves the invariant: the admin path inserts a
    verified row carrying no token, the ordinary path an unverified row. -/
theorem register_preserves_invariant (db : UserDb)
    (hdb : db_email_invariant db = true) (fid : Nat)
    (fn em pw tok : String) (expiry : Nat) :
    db_email_invariant (register db fid fn em pw tok expiry).1 = true := by
  unfold register
  split
  · simpa [db_email_invariant] using hdb
  · unfold db_email_invariant at *
    split <;> simp [List.all_append, email_invariant, hdb]

/-- E-mail verification preserves the invariant: on success the token is
    cleared in the same write that sets email_verified. -/
theorem verify_email_preserves_invariant (db : UserDb) (token : String)
    (n : Nat) (hdb : db_email_invariant db = true) :
    db_email_invariant (verify_email_via_link db token n).1 = true := by
  unfold verify_email_via_link
  cases hf : db.find? (fun u => u.email_verification_token == some token) with
  | none => simpa [db_email_invariant] using hdb
  | some u =>
    dsimp only
    split
    · simpa [db_email_invariant] using hdb
    · unfold db_email_invariant at *
      exact all_replaceFirst _ _ _
        (fun x _ => by simp [email_invariant, verified_update]) db hdb

/-- User update preserves the invariant. -/
theorem update_user_preserves_invariant (db : UserDb) (cu : User)
    (uid : Nat) (upd : UserUpdate) (tok : String) (expiry : Nat)
    (hdb : db_email_invariant db = true) :
    db_email_invariant (update_user db cu uid upd tok expiry).1 = true := by
  unfold update_user
  cases hf : db.find? (fun u => u.id == uid) with
  | none => simpa [db_email_invariant] using hdb
  | some t =>
    dsimp only
    split
    · unfold db_email_invariant at *
      split <;>
        exact all_replaceFirst _ _ _
          (fun x hx => email_invariant_apply_user_update x upd tok expiry hx)
          db hdb
    · simpa [db_email_invariant] using hdb

/-- Status update preserves the invariant: it writes only status,
    user_status and deleted_at. -/
theorem update_user_status_preserves_invariant (db : UserDb) (cu : User)
    (uid : Nat) (st : UserStatus) (n : Nat)
    (hdb : db_email_invariant db = true) :
    db_email_invariant (update_user_status db cu uid st n).1 = true := by
  unfold update_user_status
  split
  · simpa [db_email_invariant] using hdb
  · cases hf : db.find? (fun u => u.id == uid) with
    | none => simpa [db_email_invariant] using hdb
    | some u =>
      dsimp only
      split
      · simpa [db_email_invariant] using hdb
      · unfold db_email_invariant at *
        split <;>
          · refine all_replaceFirst _ _ _ ?_ db hdb
            intro x hx
            dsimp only
            split <;> simpa [email_invariant] using hx

/-- C4 amended: the invariant email_verified=true implies
    email_verification_token=null is preserved by register, verify-email,
    user update and status update; resend-verification is the one cited
    operation that violates it (see the counterexample). -/
theorem c4_invariant_except_resend (db : UserDb)
    (hdb : db_email_invariant db = true) :
    (∀ fid : Nat, ∀ fn em pw tok : String, ∀ expiry : Nat,
      db_email_invariant (register db fid fn em pw tok expiry).1 = true) ∧
    (∀ token : String, ∀ n : Nat,
      db_email_invariant (verify_email_via_link db token n).1 = true) ∧
    (∀ cu : User, ∀ uid : Nat, ∀ upd : UserUpdate, ∀ tok : String,
      ∀ expiry : Nat,
      db_email_invariant (update_user db cu uid upd tok expiry).1 = true) ∧
    (∀ cu : User, ∀ uid : Nat, ∀ st : UserStatus, ∀ n : Nat,
      db_email_invariant (update_user_status db cu uid st n).1 = true) :=
  ⟨fun fid fn em pw tok expiry =>
      register_preserves_invariant db hdb fid fn em pw tok expiry,
   fun token n => verify_email_preserves_invariant db token n hdb,
   fun cu uid upd tok expiry =>
      update_user_preserves_invariant db cu uid upd tok expiry hdb,
   fun cu uid st n =>
      update_user_status_preserves_invariant db cu uid st n hdb⟩

/-- C4 witness: the amended theorem applied to a concrete one-row table. -/
theorem c4_invariant_except_resend_witness :
    db_email_invariant [carol] = true ∧
    db_email_invariant (verify_email_via_link [carol] "tok-c" 50).1 = true ∧
    db_email_invariant
      (register [carol] 2 "Admin" "admin@example.com" "pw" "tok-b" 300).1 =
      true :=
  ⟨by decide,
    (c4_invariant_except_resend [carol] (by decide)).2.1 "tok-c" 50,
    (c4_invariant_except_resend [carol] (by decide)).1 2 "Admin"
      "admin@example.com" "pw" "tok-b" 300⟩

/-- C7: verifying an unexpired token succeeds, the account becomes ACTIVE
    and verified with token and expiry cleared, and — the token being
    unique — a second verification attempt with the same token fails with
    the InvalidToken error. -/
theorem c7_verify_token_single_use (db : UserDb) (token : String)
    (now now2 : Nat) (u : User)
    (hfind : db.find? (fun x => x.email_verification_token == some token)
      = some u)
    (hexp : verification_expired u now = false)
    (huniq : db.countP
      (fun x => x.email_verification_token == some token) ≤ 1) :
    (verify_email_via_link db token now).2 = .ok () ∧
    verified_update u ∈ (verify_email_via_link db token now).1 ∧
    (verify_email_via_link (verify_email_via_link db token now).1
        token now2).2 =
      .error (.badRequest "Invalid verification token") := by
  have hred : verify_email_via_link db token now =
      (replaceFirst (fun x => x.email_verification_token == some token)
        verified_update db, .ok ()) := by
    unfold verify_email_via_link
    rw [hfind]
    dsimp only
    rw [if_neg]
    simp [hexp]
  have hnone : List.find?
      (fun x => x.email_verification_token == some token)
      (replaceFirst (fun x => x.email_verification_token == some token)
        verified_update db) = none :=
    find?_replaceFirst_none _ _ (fun x => by simp [verified_update]) db huniq
  refine ⟨by rw [hred], ?_, ?_⟩
  · rw [hred]
    exact mem_replaceFirst_of_find? _ _ db u hfind
  · rw [hred]
    dsimp only
    unfold verify_email_via_link
    rw [hnone]

/-- C7 witness: pending Carol verifies at time 50 with token tok-c and a
    repeat attempt at time 60 is rejected. -/
theorem c7_verify_token_single_use_witness :
    List.find? (fun x => x.email_verification_token == some "tok-c")
      [carol] = some carol ∧
    verification_expired carol 50 = false ∧
    List.countP (fun x => x.email_verification_token == some "tok-c")
      [carol] ≤ 1 ∧
    ((verify_email_via_link [carol] "tok-c" 50).2 = .ok () ∧
     verified_update carol ∈ (verify_email_via_link [carol] "tok-c" 50).1 ∧
     (verify_email_via_link (verify_email_via_link [carol] "tok-c" 50).1
         "tok-c" 60).2 =
       .error (.badRequest "Invalid verification token")) :=
  ⟨by decide, by decide, by decide,
    c7_verify_token_single_use [carol] "tok-c" 50 60 carol
      (by decide) (by decide) (by decide)⟩

/-- C8: verifying a token whose stored expiry is strictly before now
    fails with the TokenExpired error and returns the users table
    untouched: status, email_verified, token and expiry all keep their
    prior values. -/
theorem c8_expired_leaves_state_unchanged (db : UserDb) (token : String)
    (now : Nat) (u : User)
    (hfind : db.find? (fun x => x.email_verification_token == some token)
      = some u)
    (hexp : verification_expired u now = true) :
    verify_email_via_link db token now =
      (db, .error (.badRequest "Verification token has expired")) := by
  unfold verify_email_via_link
  rw [hfind]
  dsimp only
  rw [if_pos hexp]

/-- C8 witness: The token of Carol expires at 100; verifying at 200 fails and
    leaves her row as it was. -/
theorem c8_expired_leaves_state_unchanged_witness :
    List.find? (fun x => x.email_verification_token == some "tok-c")
      [carol] = some carol ∧
    verification_expired carol 200 = true ∧
    verify_email_via_link [carol] "tok-c" 200 =
      ([carol], .error (.badRequest "Verification token has expired")) :=
  ⟨by decide, by decide,
    c8_expired_leaves_state_unchanged [carol] "tok-c" 200 carol
      (by decide) (by decide)⟩

/-- C9: a well-signed unexpired token whose type tag differs from the
    expected kind is rejected with the type-mismatch error; in particular
    an access token presented where a refresh token is required fails,
    and vice versa. -/
theorem c9_token_type_rejected (sub : String) (e : Nat) (secret : String)
    (now : Nat) (expected ttype : String)
    (hexp : ¬ e < now) (hty : ttype ≠ expected) :
    verify_token (create_token sub e ttype secret) secret now expected =
      .error (.typeMismatch expected ttype) ∧
    verify_token (create_access_token sub e secret) secret now "refresh" =
      .error (.typeMismatch "refresh" "access") ∧
    verify_token (create_refresh_token sub e secret) secret now "access" =
      .error (.typeMismatch "access" "refresh") := by
  have hgen : ∀ ty ex : String, ty ≠ ex →
      verify_token (create_token sub e ty secret) secret now ex =
        .error (.typeMismatch ex ty) := by
    intro ty ex hne
    unfold verify_token jwt_decode create_token
    dsimp only
    rw [if_neg (by simp), if_neg (by simpa using hexp)]
    dsimp only
    rw [if_pos (by simpa using hne)]
  exact ⟨hgen ttype expected hty,
    hgen "access" "refresh" (by decide),
    hgen "refresh" "access" (by decide)⟩

/-- C9 witness: concrete unexpired tokens of each kind presented for the
    other kind are both rejected. -/
theorem c9_token_type_rejected_witness :
    ¬ (100 : Nat) < 50 ∧
    ("access" : String) ≠ "refresh" ∧
    (verify_token (create_token "a@b.com" 100 "access" "k") "k" 50
        "refresh" = .error (.typeMismatch "refresh" "access") ∧
     verify_token (create_access_token "a@b.com" 100 "k") "k" 50
        "refresh" = .error (.typeMismatch "refresh" "access") ∧
     verify_token (create_refresh_token "a@b.com" 100 "k") "k" 50
        "access" = .error (.typeMismatch "access" "refresh")) :=
  ⟨by decide, by decide,
    c9_token_type_rejected "a@b.com" 100 "k" 50 "refresh" "access"
      (by decide) (by decide)⟩

/-- C6 counterexample: a soft-deleted todo (is_deleted=true) still shows
    up in the listing of its owner, and DELETE empties the table instead of
    flagging the row — the soft-delete behaviour the claim asserts is
    absent. -/
theorem c6_counterexample :
    alice_deleted_todo.is_deleted = true ∧
    alice_deleted_todo ∈ get_todos [alice_deleted_todo] alice 1 10 ∧
    delete_todo [alice_deleted_todo] alice 7 = ([], .ok ()) := by
  refine ⟨by decide, by decide, by decide⟩

/-- C6 amended: DELETE /todos/id performs a hard delete — the resulting
    table is a sublist of the old one with exactly the addressed row gone
    — and the listing applies no is_deleted filter: every owned row,
    soft-deleted or not, appears on a page large enough to hold the
    todos of the owner. -/
theorem c6_hard_delete_and_unfiltered_listing (db : TodoDb) (cu : User)
    (tid : Nat) (t : Todo) (per_page : Nat)
    (hfind : db.find? (fun x => x.id == tid) = some t)
    (hallow : is_admin_email cu.email = true ∨ t.user_id = cu.id)
    (huniq : db.countP (fun x => x.id == tid) ≤ 1) :
    ((delete_todo db cu tid).2 = .ok () ∧
     (delete_todo db cu tid).1.Sublist db ∧
     (delete_todo db cu tid).1.length + 1 = db.length ∧
     (delete_todo db cu tid).1.find? (fun x => x.id == tid) = none) ∧
    (∀ td ∈ db, td.user_id = cu.id → is_admin_email cu.email = false →
      (db.filter (fun x => x.user_id == cu.id)).length ≤ per_page →
      td ∈ get_todos db cu 1 per_page) := by
  have hcond : (is_admin_email cu.email || t.user_id == cu.id) = true := by
    rcases hallow with h | h
    · simp [h]
    · simp [h]
  have hred : delete_todo db cu tid =
      (db.eraseP (fun x => x.id == tid), .ok ()) := by
    unfold delete_todo
    rw [hfind]
    dsimp only
    rw [if_pos hcond]
  have hmem : t ∈ db := List.mem_of_find?_eq_some hfind
  have hpt := List.find?_some hfind
  constructor
  · refine ⟨by rw [hred], ?_, ?_, ?_⟩
    · rw [hred]
      exact List.eraseP_sublist db
    · rw [hred]
      dsimp only
      rw [List.length_eraseP_of_mem hmem hpt]
      have hpos : 0 < db.length := by
        cases db
        · cases hmem
        · simp
      omega
    · rw [hred]
      exact find?_eraseP_none _ db huniq
  · intro td htd hown hnadmin hlen
    simp only [get_todos]
    rw [if_neg (by simp [hnadmin])]
    have h0 : (1 - 1) * per_page = 0 := by omega
    rw [h0, List.drop_zero, List.take_of_length_le hlen]
    exact List.mem_filter.mpr ⟨htd, by simp [hown]⟩

/-- C6 witness: the amended theorem on the one-row table holding the
    soft-deleted todo. -/
theorem c6_hard_delete_and_unfiltered_listing_witness :
    List.find? (fun x => x.id == 7) [alice_deleted_todo] =
      some alice_deleted_todo ∧
    (is_admin_email alice.email = true ∨
      alice_deleted_todo.user_id = alice.id) ∧
    List.countP (fun x => x.id == 7) [alice_deleted_todo] ≤ 1 ∧
    (((delete_todo [alice_deleted_todo] alice 7).2 = .ok () ∧
      (delete_todo [alice_deleted_todo] alice 7).1.Sublist
        [alice_deleted_todo] ∧
      (delete_todo [alice_deleted_todo] alice 7).1.length + 1 =
        [alice_deleted_todo].length ∧
      (delete_todo [alice_deleted_todo] alice 7).1.find?
        (fun x => x.id == 7) = none) ∧
     (∀ td ∈ [alice_deleted_todo], td.user_id = alice.id →
        is_admin_email alice.email = false →
        ([alice_deleted_todo].filter
          (fun x => x.user_id == alice.id)).length ≤ 10 →
        td ∈ get_todos [alice_deleted_todo] alice 1 10)) :=
  ⟨by decide, by decide, by decide,
    c6_hard_delete_and_unfiltered_listing [alice_deleted_todo] alice 7
      alice_deleted_todo 10 (by decide) (by decide) (by decide)⟩
